import Mathlib

/-
  Verification of the pySigfox client library (src/pySigfox/pySigfox.py)
  against its natural-language specification.

  Shallow embedding conventions:
  * JSON values are modelled by the inductive type `Json`; a backend HTTP
    response is a `Response` carrying the HTTP status code, the raw body
    text, and the result of attempting to parse the body as JSON
    (`json = none` models a body that is not valid JSON, in which case
    `r.json()` / `json.loads(r.text)` raises a decode error whose `doc`
    attribute is the raw body text).
  * Python exceptions that the methods can raise are the constructors of
    `PyErr`; fallible methods return `Except PyErr _`.  The generic
    `Exception` raised by the constructor is `configurationError` (the
    spec's `ConfigurationError`), JSON decode errors are `jsonDecodeError`
    (the spec's `ProtocolError`, carrying the raw body), and
    `ratelimit.exception.RateLimitException` is `rateLimitExceeded`
    (the spec's `RateLimitExceeded`).
  * The network is an explicit argument: a total function from requests to
    responses (pure value semantics), or from the global request count and
    the request to responses (timed semantics, so that a mocked backend can
    answer differently on a retry).
  * Python's unbounded recursion over page cursors is modelled with an
    explicit fuel parameter; `PyErr.outOfFuel` is the model artifact
    returned when the fuel is exhausted and never arises in any theorem
    whose hypotheses bound the chain length by the fuel.
  * Debug `print`/`pprint` calls are pure I/O side effects with no
    influence on control flow or results; they are not modelled.
-/

namespace PySigfox

/-- JSON values, as produced by Python's `json` module. -/
inductive Json where
  | null
  | bool (b : Bool)
  | num (n : Int)
  | str (s : String)
  | arr (elems : List Json)
  | obj (fields : List (String × Json))

/-- Python exception kinds that the client code can raise. -/
inductive PyErr where
  /-- The generic `Exception` raised by `Sigfox.__init__` on missing
  credentials (the spec's `ConfigurationError`). -/
  | configurationError (msg : String)
  /-- `json.JSONDecodeError` from `r.json()` / `json.loads(r.text)`
  (the spec's `ProtocolError`); `doc` is the raw response body text. -/
  | jsonDecodeError (doc : String)
  /-- `KeyError` from subscripting a dict with a missing key. -/
  | keyError
  /-- `TypeError` from subscripting a non-dict value with a string key, or
  from `+=` on incompatible operands. -/
  | typeError
  /-- `ratelimit.exception.RateLimitException(message, period_remaining)`
  (the spec's `RateLimitExceeded`). -/
  | rateLimitExceeded (msg : String) (period_remaining : Int)
  /-- Model artifact: recursion fuel exhausted. -/
  | outOfFuel
deriving DecidableEq, Repr

/-- Field lookup in a JSON object's field list (first match, as in a
Python dict, which cannot contain duplicate keys). -/
def getFieldList : List (String × Json) → String → Option Json
  | [], _ => none
  | (k', v) :: rest, k => if k' = k then some v else getFieldList rest k

/-- Python subscripting `j[k]`: `KeyError` when the key is missing from a
dict, `TypeError` when `j` is not a dict. -/
def Json.pyGet (j : Json) (k : String) : Except PyErr Json :=
  match j with
  | .obj fields =>
    match getFieldList fields k with
    | some v => .ok v
    | none => .error .keyError
  | _ => .error .typeError

/-- Python `out += rest` where `out` held a page's `data` value and `rest`
is the value of the recursive pagination call: list concatenation when
both are lists; other combinations are approximated as `TypeError` (the
claims under verification only exercise the list/list case). -/
def jsonAppend : Json → Json → Except PyErr Json
  | .arr a, .arr b => .ok (.arr (a ++ b))
  | _, _ => .error .typeError

/-- An HTTP request as issued through the `requests` library: method,
URL, optional query parameters (`params=`), optional body (`json=` or
`data=`). -/
structure Req where
  method : String
  url : String
  params : Option (List (String × Json)) := none
  body : Option Json := none

/-- An HTTP response: status code, raw body text, and the result of
attempting to parse the body as JSON (`none` = body is not valid JSON). -/
structure Response where
  status : Nat
  text : String
  json : Option Json

/-- A GET request with no query parameters and no body
(`requests.get(url, auth=...)`). -/
def getReq (url : String) : Req :=
  { method := "GET", url := url }

/-- The client object: `Sigfox.__init__` stores the credentials, the
fixed base URL, and the debug flag. -/
structure Sigfox where
  login : String
  password : String
  api_url : String
  debug : Bool

/-- `Sigfox.__init__(login, password, debug=False)`.  `not login` /
`not password` is true exactly for the empty string (the credentials are
strings), in which case a generic `Exception` is raised before anything
else happens; the constructor performs no network call (its type takes no
backend). -/
def sigfox_init (login password : String) (debug : Bool) : Except PyErr Sigfox :=
  if login = "" ∨ password = "" then
    .error (.configurationError
      "Please define login and password when initiating pySigfox class!")
  else
    .ok { login := login, password := password,
          api_url := "https://api.sigfox.com/v2/", debug := debug }

/-- `device_rename(device_id, new_name)`: issues the PUT request and
falls off the end of the function: the response object `r` is bound but
its status and body are never inspected, and Python returns `None`. -/
def device_rename (c : Sigfox) (B : Req → Response) (device_id new_name : String) :
    Except PyErr Unit :=
  let _r := B { method := "PUT", url := c.api_url ++ "devices/" ++ device_id,
                body := some (.obj [("name", .str new_name)]) }
  .ok ()

/-- The GET request issued by `device_info` (and by the PUT-free part of
the URL construction shared with `device_rename`). -/
def infoReq (c : Sigfox) (device_id : String) : Req :=
  getReq (c.api_url ++ "devices/" ++ device_id)

/-- `device_info(device_id)`: GET `devices/{id}`, then `return r.json()`
(the full parsed body, no field is extracted); a JSON decode failure is
pretty-printed and re-raised. -/
def device_info (c : Sigfox) (B : Req → Response) (device_id : String) :
    Except PyErr Json :=
  let r := B (infoReq c device_id)
  match r.json with
  | some j => .ok j
  | none => .error (.jsonDecodeError r.text)

/-- The GET request issued by `groups_list`. -/
def groupsReq (c : Sigfox) : Req :=
  getReq (c.api_url ++ "groups")

/-- `groups_list()`: GET `groups`, `json.loads(r.text)['data']`, then the
records are appended one by one to `out` (which requires `data` to be a
list) and returned. -/
def groups_list (c : Sigfox) (B : Req → Response) : Except PyErr (List Json) :=
  let r := B (groupsReq c)
  match r.json with
  | none => .error (.jsonDecodeError r.text)
  | some j =>
    match j.pyGet "data" with
    | .error e => .error e
    | .ok (.arr xs) => .ok xs
    | .ok _ => .error .typeError

/-- A device-type descriptor as consumed by `device_list` and
`device_create` (only `id` and `name` are ever subscripted). -/
structure DeviceType where
  id : String
  name : String

/-- The GET request issued by `device_list`: `devices` with query
parameter `deviceTypeId`. -/
def deviceListReq (c : Sigfox) (device_type : DeviceType) : Req :=
  { method := "GET", url := c.api_url ++ "devices",
    params := some [("deviceTypeId", .str device_type.id)] }

/-- `device_list(device_type)`: GET `devices` with query parameter
`deviceTypeId`, then `out += r.json()['data']`; any failure inside the
`try` is printed together with the raw body and re-raised. -/
def device_list (c : Sigfox) (B : Req → Response) (device_type : DeviceType) :
    Except PyErr (List Json) :=
  let r := B (deviceListReq c device_type)
  match r.json with
  | none => .error (.jsonDecodeError r.text)
  | some j =>
    match j.pyGet "data" with
    | .error e => .error e
    | .ok (.arr xs) => .ok xs
    | .ok _ => .error .typeError

/-- A device descriptor as consumed by `device_create` (subscripted at
`'id'` and `'pac'`). -/
structure Device where
  id : String
  pac : String

/-- The `to_post` body composed by `device_create`: it mentions only the
device descriptor and the certificate, never the device-type. -/
def device_create_toPost (device : Device) (cert : String) : Json :=
  .obj [("prefix", .str "api_added-"),
        ("ids", .arr [.obj [("id", .str device.id), ("pac", .str device.pac)]]),
        ("productCertificate", .str cert)]

/-- The POST request issued by `device_create`: the device-type appears
only in the URL, the body is `to_post`. -/
def device_create_req (c : Sigfox) (device : Device) (cert : String)
    (devicetype : DeviceType) : Req :=
  { method := "POST",
    url := c.api_url ++ "devicetypes/" ++ devicetype.id ++ "/devices/bulk/create/async",
    body := some (device_create_toPost device cert) }

/-- `device_create(device, cert, devicetype)`: POST the composed body and
`return r.json()` (a decode failure propagates as the decode error). -/
def device_create (c : Sigfox) (B : Req → Response) (device : Device)
    (cert : String) (devicetype : DeviceType) : Except PyErr Json :=
  let r := B (device_create_req c device cert devicetype)
  match r.json with
  | some j => .ok j
  | none => .error (.jsonDecodeError r.text)

/-- A new-device-type descriptor as passed to `device_types_create`
(per the spec it carries the `name` and `contractId` to create). -/
structure NewDeviceType where
  name : String
  contractId : String

/-- The POST request issued by `device_types_create`: the body is the
local `dtype` dict, whose values are hardcoded to `'test1'` and
`'moire_la_30f0_30f1'`; the `new` parameter is never read. -/
def device_types_create_req (c : Sigfox) (_nw : NewDeviceType) : Req :=
  { method := "POST", url := c.api_url ++ "devicetypes/create",
    body := some (.obj [("name", .str "test1"),
                        ("contractId", .str "moire_la_30f0_30f1")]) }

/-- `device_types_create(new)`: POST the hardcoded `dtype` body and
`return r` (the raw response object, not a parsed JSON body). -/
def device_types_create (c : Sigfox) (B : Req → Response) (nw : NewDeviceType) :
    Response :=
  B (device_types_create_req c nw)

/-- The first-page request issued by `device_messages(device_id, params)`
(after defaulting `params` to `{'limit': 10}`). -/
def msgReq (c : Sigfox) (device_id : String)
    (params : Option (List (String × Json))) : Req :=
  { method := "GET", url := c.api_url ++ "devices/" ++ device_id ++ "/messages",
    params := some (params.getD [("limit", .num 10)]) }

/-- Value semantics of `device_messages_page(url)` (the body of the
method; the `sleep_and_retry` / `limits` decorators only influence timing
and the handling of `RateLimitException`, which is modelled separately by
`timed_device_messages_page` — on executions that never produce a 429
response and never hit the rate limiter the two agree on the returned
value).  Control flow of the body:
* a 429 status raises `RateLimitException('Exceeded Sigfox API rate limit', 5)`;
* an unparseable body raises the JSON decode error (pretty-printed and
  re-raised by the outer `except`);
* `out = r_deserialized['data']` raises `KeyError` when `data` is missing
  (re-raised by the outer `except`);
* `r_deserialized['paging']['next']` raising `KeyError` is swallowed by
  `except KeyError: pass`, terminating the walk — and the same handler
  also swallows a `KeyError` raised (and re-raised) by the recursive call
  itself;
* otherwise the recursive result is appended with `out += ...`. -/
def device_messages_page (c : Sigfox) (B : Req → Response) :
    Nat → String → Except PyErr Json
  | 0, _ => .error .outOfFuel
  | fuel + 1, url =>
    let r := B (getReq url)
    if r.status = 429 then
      .error (.rateLimitExceeded "Exceeded Sigfox API rate limit" 5)
    else
      match r.json with
      | none => .error (.jsonDecodeError r.text)
      | some j =>
        match j.pyGet "data" with
        | .error e => .error e
        | .ok out =>
          match (j.pyGet "paging").bind (fun pg => pg.pyGet "next") with
          | .error .keyError => .ok out
          | .error e => .error e
          | .ok (.str u) =>
            match device_messages_page c B fuel u with
            | .ok rest => jsonAppend out rest
            | .error .keyError => .ok out
            | .error e => .error e
          | .ok _ => .error .typeError

/-- Value semantics of `device_messages(device_id, params=None)`: default
the params, issue the first-page request, then proceed exactly as
`device_messages_page` does, delegating to it for the `paging.next`
cursor. -/
def device_messages (c : Sigfox) (B : Req → Response) (fuel : Nat)
    (device_id : String) (params : Option (List (String × Json))) :
    Except PyErr Json :=
  let r := B (msgReq c device_id params)
  if r.status = 429 then
    .error (.rateLimitExceeded "Exceeded Sigfox API rate limit" 5)
  else
    match r.json with
    | none => .error (.jsonDecodeError r.text)
    | some j =>
      match j.pyGet "data" with
      | .error e => .error e
      | .ok out =>
        match (j.pyGet "paging").bind (fun pg => pg.pyGet "next") with
        | .error .keyError => .ok out
        | .error e => .error e
        | .ok (.str u) =>
          match device_messages_page c B fuel u with
          | .ok rest => jsonAppend out rest
          | .error .keyError => .ok out
          | .error e => .error e
        | .ok _ => .error .typeError

/-! ## Timed semantics of the decorated message-retrieval methods

`device_messages_page` and `device_messages` are each decorated with
`@sleep_and_retry` over `@limits(calls=1, period=5)` from the `ratelimit`
package.  Decoration happens once, at class-definition time, so each of
the two methods owns one `RateLimitDecorator` instance — i.e. one limiter
state per method, shared process-wide, and no state shared between the
two methods.  The semantics of those decorators (embedded below from the
`ratelimit` package, version pinned by the repository):

* `limits(calls=1, period=5)` keeps `last_reset` (initialised to the
  clock at decoration time, time 0 in the model) and `num_calls`.  On
  every invocation it computes `period_remaining = period - (now -
  last_reset)`; if that is `<= 0` it resets (`num_calls = 0`,
  `last_reset = now`); it then increments `num_calls` and raises
  `RateLimitException('too many calls', period_remaining)` when
  `num_calls` exceeds 1, otherwise runs the wrapped body.
* `sleep_and_retry` runs the wrapped callable in a `while True` loop,
  catching any `RateLimitException` (whether raised by `limits` or by the
  method body itself), sleeping `exception.period_remaining` seconds and
  retrying; any other exception propagates.

Time is modelled as an integer clock advanced only by those sleeps (HTTP
exchanges are instantaneous in the model); the backend is a function of
the global request count and the request, so a mock can answer a retry
differently; every issued request's timestamp is appended to `log`. -/

/-- The mutable state of one `RateLimitDecorator` instance. -/
structure LimState where
  last_reset : Int
  num_calls : Nat
deriving DecidableEq, Repr

/-- One pass of the `limits(calls=1, period=5)` wrapper at clock `now`:
returns the mutated limiter state, and `some period_remaining` when it
raises `RateLimitException` (`none` = the wrapped body runs now). -/
def limitsCheck (s : LimState) (now : Int) : LimState × Option Int :=
  let pr : Int := 5 - (now - s.last_reset)
  let s1 := if pr ≤ 0 then { last_reset := now, num_calls := 0 } else s
  let s2 := { s1 with num_calls := s1.num_calls + 1 }
  if s2.num_calls > 1 then (s2, some pr) else (s2, none)

/-- Global execution state of the timed model: the clock, the number of
HTTP requests issued so far, the timestamps at which they were issued,
and the limiter state of each decorated method. -/
structure TState where
  now : Int
  reqCount : Nat
  log : List Int
  dmLim : LimState
  dmpLim : LimState
deriving DecidableEq, Repr

/-- The state at process start: clock 0, no requests issued, both
limiters fresh (decoration time = time 0). -/
def initTState : TState :=
  { now := 0, reqCount := 0, log := [], dmLim := ⟨0, 0⟩, dmpLim := ⟨0, 0⟩ }

/-- Timed semantics of the decorated `device_messages_page`: the
`sleep_and_retry` loop re-enters `limits` and the body; a
`RateLimitException` raised by either (limiter window exhausted, or a 429
response) makes it sleep `period_remaining` and retry.  The recursive
pagination call goes through the decorated method again, so it passes the
`dmpLim` limiter.  `fuel` bounds the loop/recursion depth. -/
def timed_device_messages_page (c : Sigfox) (B : Nat → Req → Response) :
    Nat → TState → String → Except PyErr Json × TState
  | 0, st, _ => (.error .outOfFuel, st)
  | fuel + 1, st, url =>
    match limitsCheck st.dmpLim st.now with
    | (s', some pr) =>
      timed_device_messages_page c B fuel
        { st with dmpLim := s', now := st.now + pr } url
    | (s', none) =>
      let st := { st with dmpLim := s' }
      let r := B st.reqCount (getReq url)
      let st := { st with reqCount := st.reqCount + 1, log := st.log ++ [st.now] }
      if r.status = 429 then
        timed_device_messages_page c B fuel { st with now := st.now + 5 } url
      else
        match r.json with
        | none => (.error (.jsonDecodeError r.text), st)
        | some j =>
          match j.pyGet "data" with
          | .error e => (.error e, st)
          | .ok out =>
            match (j.pyGet "paging").bind (fun pg => pg.pyGet "next") with
            | .error .keyError => (.ok out, st)
            | .error e => (.error e, st)
            | .ok (.str u) =>
              match timed_device_messages_page c B fuel st u with
              | (.ok rest, st') => (jsonAppend out rest, st')
              | (.error .keyError, st') => (.ok out, st')
              | (.error e, st') => (.error e, st')
            | .ok _ => (.error .typeError, st)

/-- Timed semantics of the decorated `device_messages`: same
`sleep_and_retry` / `limits` wrapping but over the `dmLim` limiter state;
the recursive pagination call delegates to the decorated
`device_messages_page` (hence to the `dmpLim` limiter). -/
def timed_device_messages (c : Sigfox) (B : Nat → Req → Response) :
    Nat → TState → String → Option (List (String × Json)) →
    Except PyErr Json × TState
  | 0, st, _, _ => (.error .outOfFuel, st)
  | fuel + 1, st, device_id, params =>
    match limitsCheck st.dmLim st.now with
    | (s', some pr) =>
      timed_device_messages c B fuel
        { st with dmLim := s', now := st.now + pr } device_id params
    | (s', none) =>
      let st := { st with dmLim := s' }
      let r := B st.reqCount (msgReq c device_id params)
      let st := { st with reqCount := st.reqCount + 1, log := st.log ++ [st.now] }
      if r.status = 429 then
        timed_device_messages c B fuel { st with now := st.now + 5 } device_id params
      else
        match r.json with
        | none => (.error (.jsonDecodeError r.text), st)
        | some j =>
          match j.pyGet "data" with
          | .error e => (.error e, st)
          | .ok out =>
            match (j.pyGet "paging").bind (fun pg => pg.pyGet "next") with
            | .error .keyError => (.ok out, st)
            | .error e => (.error e, st)
            | .ok (.str u) =>
              match timed_device_messages_page c B fuel st u with
              | (.ok rest, st') => (jsonAppend out rest, st')
              | (.error .keyError, st') => (.ok out, st')
              | (.error e, st') => (.error e, st')
            | .ok _ => (.error .typeError, st)

/-! ## Backend page envelopes and pagination chains -/

/-- The JSON envelope of one message page: a `data` array and, when a
further page exists, a `paging.next` cursor. -/
def pageJson (p : List Json) (next : Option String) : Json :=
  match next with
  | none => .obj [("data", .arr p)]
  | some u => .obj [("data", .arr p), ("paging", .obj [("next", .str u)])]

/-- A 200 response whose body is the page envelope. -/
def pageResponse (p : List Json) (next : Option String) : Response :=
  { status := 200, text := "", json := some (pageJson p next) }

/-- `servesChain B rq pages urls` says: starting from request `rq`, the
backend serves a finite, non-cyclic chain of page envelopes whose `data`
arrays are `pages`, linked by the cursor URLs `urls` (one per page after
the first), with the last envelope carrying no `paging.next`. -/
def servesChain (B : Req → Response) : Req → List (List Json) → List String → Prop
  | rq, [p], [] => B rq = pageResponse p none
  | rq, p :: q :: ps, u :: us =>
    B rq = pageResponse p (some u) ∧ servesChain B (getReq u) (q :: ps) us
  | _, _, _ => False

/-- A response whose body is valid JSON but whose envelope lacks the
`data` key (and is not a 429). -/
def badDataResponse (r : Response) : Prop :=
  r.status ≠ 429 ∧ ∃ j, r.json = some j ∧ j.pyGet "data" = .error .keyError

/-- `chainThenBad B rq pages urls` says: starting from `rq`, the backend
serves the good pages `pages` linked by `urls` (one cursor per page, the
last one included), and the URL the last good page points to answers with
a valid-JSON envelope that lacks the `data` key. -/
def chainThenBad (B : Req → Response) : Req → List (List Json) → List String → Prop
  | rq, [p], [u] => B rq = pageResponse p (some u) ∧ badDataResponse (B (getReq u))
  | rq, p :: q :: ps, u :: us =>
    B rq = pageResponse p (some u) ∧ chainThenBad B (getReq u) (q :: ps) us
  | _, _, _ => False

/-- Looking up `data` in a page envelope. -/
theorem pageJson_pyGet_data (p : List Json) (nx : Option String) :
    (pageJson p nx).pyGet "data" = .ok (.arr p) := by
  cases nx <;> rfl

/-- A terminal page envelope has no `paging` key. -/
theorem pageJson_paging_none (p : List Json) :
    ((pageJson p none).pyGet "paging").bind (fun pg => pg.pyGet "next") =
      .error .keyError := rfl

/-- A linking page envelope yields its cursor. -/
theorem pageJson_paging_some (p : List Json) (u : String) :
    ((pageJson p (some u)).pyGet "paging").bind (fun pg => pg.pyGet "next") =
      .ok (.str u) := rfl

/-- Helper for C1: `device_messages_page` on a served chain returns the
concatenation of the chain's `data` arrays, in chain order. -/
theorem device_messages_page_serves_chain (c : Sigfox) (B : Req → Response) :
    ∀ (pages : List (List Json)) (urls : List String) (u : String) (fuel : Nat),
      servesChain B (getReq u) pages urls → pages.length ≤ fuel →
      device_messages_page c B fuel u = .ok (.arr pages.flatten) := by
  intro pages
  induction pages with
  | nil =>
    intro urls u fuel h _
    cases urls <;> simp [servesChain] at h
  | cons p ps ih =>
    intro urls u fuel h hf
    simp only [List.length_cons] at hf
    obtain ⟨f, rfl⟩ : ∃ f, fuel = f + 1 := ⟨fuel - 1, by omega⟩
    cases ps with
    | nil =>
      cases urls with
      | nil =>
        simp only [servesChain] at h
        simp [device_messages_page, h, pageResponse, pageJson_pyGet_data,
          pageJson_paging_none]
      | cons u' us => simp [servesChain] at h
    | cons q ps' =>
      cases urls with
      | nil => simp [servesChain] at h
      | cons u' us =>
        obtain ⟨hB, hrest⟩ := h
        have ihr := ih us u' f hrest (by simpa using hf)
        simp [device_messages_page, hB, pageResponse, pageJson_pyGet_data,
          pageJson_paging_some, ihr, jsonAppend]

/-! ## Concrete fixtures used by witnesses and counterexamples -/

/-- A concretely constructed client (credentials are irrelevant to the
verified behaviours; `api_url` is the value `__init__` always stores). -/
def c0 : Sigfox :=
  { login := "user", password := "pw",
    api_url := "https://api.sigfox.com/v2/", debug := false }

/-- A mocked backend serving two message pages for device `dev1`:
10 records then, behind a `paging.next` cursor, 5 records. -/
def chainB1 : Req → Response := fun rq =>
  if rq.url = "https://api.sigfox.com/v2/devices/dev1/messages" then
    pageResponse (List.replicate 10 (Json.num 1)) (some "https://p2")
  else if rq.url = "https://p2" then
    pageResponse (List.replicate 5 (Json.num 2)) none
  else { status := 404, text := "", json := none }

/-- A mocked backend answering every request with `data: []` and no
`paging.next`. -/
def emptyB1 : Req → Response := fun _ => pageResponse [] none

/-! ## Claim C1 -/

/-- Claim C1: for every device id and every finite, non-cyclic chain of
page envelopes served by the backend, `device_messages` returns the
concatenation of the `data` arrays of all pages in page order (earlier
pages precede later pages; within a page backend order is preserved).
The fuel bound is the model's stand-in for Python's unbounded recursion:
any fuel at least the chain length suffices. -/
theorem C1_device_messages_paging_concat (c : Sigfox) (B : Req → Response)
    (device_id : String) (params : Option (List (String × Json)))
    (pages : List (List Json)) (urls : List String) (fuel : Nat)
    (hchain : servesChain B (msgReq c device_id params) pages urls)
    (hfuel : pages.length ≤ fuel + 1) :
    device_messages c B fuel device_id params = .ok (.arr pages.flatten) := by
  cases pages with
  | nil => cases urls <;> simp [servesChain] at hchain
  | cons p ps =>
    cases ps with
    | nil =>
      cases urls with
      | nil =>
        simp only [servesChain] at hchain
        simp [device_messages, hchain, pageResponse, pageJson_pyGet_data,
          pageJson_paging_none]
      | cons u' us => simp [servesChain] at hchain
    | cons q ps' =>
      cases urls with
      | nil => simp [servesChain] at hchain
      | cons u' us =>
        obtain ⟨hB, hrest⟩ := hchain
        have hr := device_messages_page_serves_chain c B (q :: ps') us u' fuel
          hrest (by simp only [List.length_cons] at hfuel ⊢; omega)
        simp [device_messages, hB, pageResponse, pageJson_pyGet_data,
          pageJson_paging_some, hr, jsonAppend]

/-- Witness for C1: the two-page mock (10 records then 5) returns exactly
the 15 records in page order, and the `data: []`, no-`paging.next` mock
returns the empty sequence. -/
theorem C1_witness :
    (servesChain chainB1 (msgReq c0 "dev1" none)
        [List.replicate 10 (Json.num 1), List.replicate 5 (Json.num 2)]
        ["https://p2"] ∧
      device_messages c0 chainB1 1 "dev1" none =
        .ok (.arr (List.replicate 10 (Json.num 1) ++ List.replicate 5 (Json.num 2)))) ∧
    (servesChain emptyB1 (msgReq c0 "dev0" none) [[]] [] ∧
      device_messages c0 emptyB1 0 "dev0" none = .ok (.arr [])) := by
  refine ⟨⟨⟨rfl, rfl⟩, ?_⟩, ⟨rfl, ?_⟩⟩
  · have h := C1_device_messages_paging_concat c0 chainB1 "dev1" none
      [List.replicate 10 (Json.num 1), List.replicate 5 (Json.num 2)]
      ["https://p2"] 1 ⟨rfl, rfl⟩ (by simp)
    simpa using h
  · have h := C1_device_messages_paging_concat c0 emptyB1 "dev0" none
      [[]] [] 0 rfl (by simp)
    simpa using h

/-! ## Claim C9 -/

/-- Helper for C9: `device_messages_page` on a chain of good pages whose
last cursor leads to a valid-JSON envelope lacking `data` returns just
the good pages' records: the recursive call's `KeyError` (pretty-printed
and re-raised by its own outer handler) is swallowed by the caller's
`except KeyError: pass`. -/
theorem device_messages_page_chainThenBad (c : Sigfox) (B : Req → Response) :
    ∀ (pages : List (List Json)) (urls : List String) (u : String) (fuel : Nat),
      chainThenBad B (getReq u) pages urls → pages.length + 1 ≤ fuel →
      device_messages_page c B fuel u = .ok (.arr pages.flatten) := by
  intro pages
  induction pages with
  | nil =>
    intro urls u fuel h _
    cases urls <;> simp [chainThenBad] at h
  | cons p ps ih =>
    intro urls u fuel h hf
    simp only [List.length_cons] at hf
    obtain ⟨f, rfl⟩ : ∃ f, fuel = f + 1 := ⟨fuel - 1, by omega⟩
    cases ps with
    | nil =>
      cases urls with
      | nil => simp [chainThenBad] at h
      | cons u' us =>
        cases us with
        | cons _ _ => simp [chainThenBad] at h
        | nil =>
          obtain ⟨hB, hbad⟩ := h
          obtain ⟨hs, j, hj, hd⟩ := hbad
          obtain ⟨f', rfl⟩ : ∃ f', f = f' + 1 := ⟨f - 1, by omega⟩
          simp [device_messages_page, hB, pageResponse, pageJson_pyGet_data,
            pageJson_paging_some, hs, hj, hd]
    | cons q ps' =>
      cases urls with
      | nil => simp [chainThenBad] at h
      | cons u' us =>
        obtain ⟨hB, hrest⟩ := h
        have ihr := ih us u' f hrest (by simpa using hf)
        simp [device_messages_page, hB, pageResponse, pageJson_pyGet_data,
          pageJson_paging_some, ihr, jsonAppend]

/-- Claim C9: when a later page's envelope is valid JSON but lacks the
`data` key, `device_messages` (and likewise `device_messages_page`
started from a cursor) returns only the records accumulated from the
earlier pages and signals no error: the recursive call's missing-key
`KeyError` is swallowed by the same `except KeyError: pass` that
terminates pagination on a missing `paging.next`, silently truncating
the result. -/
theorem C9_missing_data_truncation (c : Sigfox) (B : Req → Response)
    (device_id : String) (params : Option (List (String × Json)))
    (pages pages2 : List (List Json)) (urls urls2 : List String)
    (u0 : String) (fuel fuel2 : Nat)
    (h1 : chainThenBad B (msgReq c device_id params) pages urls)
    (hf1 : pages.length ≤ fuel)
    (h2 : chainThenBad B (getReq u0) pages2 urls2)
    (hf2 : pages2.length + 1 ≤ fuel2) :
    device_messages c B fuel device_id params = .ok (.arr pages.flatten) ∧
    device_messages_page c B fuel2 u0 = .ok (.arr pages2.flatten) := by
  refine ⟨?_, device_messages_page_chainThenBad c B pages2 urls2 u0 fuel2 h2 hf2⟩
  cases pages with
  | nil => cases urls <;> simp [chainThenBad] at h1
  | cons p ps =>
    simp only [List.length_cons] at hf1
    cases ps with
    | nil =>
      cases urls with
      | nil => simp [chainThenBad] at h1
      | cons u' us =>
        cases us with
        | cons _ _ => simp [chainThenBad] at h1
        | nil =>
          obtain ⟨hB, hbad⟩ := h1
          obtain ⟨hs, j, hj, hd⟩ := hbad
          obtain ⟨f', rfl⟩ : ∃ f', fuel = f' + 1 := ⟨fuel - 1, by omega⟩
          simp [device_messages, device_messages_page, hB, pageResponse,
            pageJson_pyGet_data, pageJson_paging_some, hs, hj, hd]
    | cons q ps' =>
      cases urls with
      | nil => simp [chainThenBad] at h1
      | cons u' us =>
        obtain ⟨hB, hrest⟩ := h1
        have hr := device_messages_page_chainThenBad c B (q :: ps') us u' fuel
          hrest (by simpa using hf1)
        simp [device_messages, hB, pageResponse, pageJson_pyGet_data,
          pageJson_paging_some, hr, jsonAppend]

/-- A mocked backend whose first message page for `dev1` is good and
points to a second page whose envelope parses but lacks `data`; it also
serves a cursor-started chain `q1 → q2` where `q2` lacks `data`. -/
def truncB : Req → Response := fun rq =>
  if rq.url = "https://api.sigfox.com/v2/devices/dev1/messages" then
    pageResponse [Json.num 1] (some "https://p2")
  else if rq.url = "https://p2" then
    { status := 200, text := "{}", json := some (.obj []) }
  else if rq.url = "https://q1" then
    pageResponse [Json.num 2] (some "https://q2")
  else if rq.url = "https://q2" then
    { status := 200, text := "{}", json := some (.obj []) }
  else { status := 404, text := "", json := none }

/-- Witness for C9: one good page then a `data`-less page yields just the
first page's record, with no error, for both entry points. -/
theorem C9_witness :
    chainThenBad truncB (msgReq c0 "dev1" none) [[Json.num 1]] ["https://p2"] ∧
    chainThenBad truncB (getReq "https://q1") [[Json.num 2]] ["https://q2"] ∧
    device_messages c0 truncB 1 "dev1" none = .ok (.arr [Json.num 1]) ∧
    device_messages_page c0 truncB 2 "https://q1" = .ok (.arr [Json.num 2]) := by
  have hc1 : chainThenBad truncB (msgReq c0 "dev1" none) [[Json.num 1]] ["https://p2"] :=
    ⟨rfl, by decide, .obj [], rfl, rfl⟩
  have hc2 : chainThenBad truncB (getReq "https://q1") [[Json.num 2]] ["https://q2"] :=
    ⟨rfl, by decide, .obj [], rfl, rfl⟩
  have h := C9_missing_data_truncation c0 truncB "dev1" none
    [[Json.num 1]] [[Json.num 2]] ["https://p2"] ["https://q2"] "https://q1" 1 2
    hc1 (by simp) hc2 (by simp)
  exact ⟨hc1, hc2, by simpa using h.1, by simpa using h.2⟩

/-! ## Claim C2 -/

/-- A timed mocked backend: the first HTTP request is answered 429, every
later one with a good empty page. -/
def b429then : Nat → Req → Response := fun n _ =>
  if n = 0 then { status := 429, text := "", json := none }
  else pageResponse [] none

/-- Counterexample to C2 as stated: with a backend whose (first-page)
response is HTTP 429, the decorated `device_messages` call does not fail
to the caller at all — the `sleep_and_retry` decorator catches the
`RateLimitException` raised by the body, sleeps, retries, and the call
returns the retried page's records normally. -/
theorem C2_counterexample :
    (timed_device_messages c0 b429then 3 initTState "dev1" none).1 = .ok (.arr []) ∧
    ¬ ((timed_device_messages c0 b429then 3 initTState "dev1" none).1 =
        .error (.rateLimitExceeded "Exceeded Sigfox API rate limit" 5)) := by
  have h : (timed_device_messages c0 b429then 3 initTState "dev1" none).1 =
      .ok (.arr []) := rfl
  refine ⟨h, ?_⟩
  rw [h]
  intro hc
  exact Except.noConfusion hc

/-- Claim C2 (amended): on a 429 response the method body of
`device_messages_page` / `device_messages` raises the distinguished
`RateLimitException` (the spec's `RateLimitExceeded`) carrying a
suggested retry delay of 5 seconds — not a generic error — but the
`sleep_and_retry` decorator wrapped around each method catches that
exception, sleeps the 5 seconds, and reissues the request internally, so
the rejection is not surfaced to the caller.  The third conjunct shows
the decorated behaviour concretely: a 429 first answer makes the call
sleep from clock 0 to clock 5, issue a second request, and return that
page's records. -/
theorem C2_amended_rate_limit_retry :
    (∀ (c : Sigfox) (B : Req → Response) (fuel : Nat) (url : String),
        (B (getReq url)).status = 429 →
        device_messages_page c B (fuel + 1) url =
          .error (.rateLimitExceeded "Exceeded Sigfox API rate limit" 5)) ∧
    (∀ (c : Sigfox) (B : Req → Response) (fuel : Nat) (device_id : String)
        (params : Option (List (String × Json))),
        (B (msgReq c device_id params)).status = 429 →
        device_messages c B fuel device_id params =
          .error (.rateLimitExceeded "Exceeded Sigfox API rate limit" 5)) ∧
    timed_device_messages_page c0 b429then 3 initTState "https://p1" =
      (.ok (.arr []),
        { now := 5, reqCount := 2, log := [0, 5], dmLim := ⟨0, 0⟩, dmpLim := ⟨5, 1⟩ }) := by
  refine ⟨?_, ?_, rfl⟩
  · intro c B fuel url h
    simp [device_messages_page, h]
  · intro c B fuel device_id params h
    simp [device_messages, h]

/-- A pure mocked backend answering every request with HTTP 429. -/
def always429 : Req → Response := fun _ =>
  { status := 429, text := "", json := none }

/-- Witness for C2 (amended): the body of `device_messages_page` on a 429
response yields exactly the distinguished rate-limit error with retry
delay 5. -/
theorem C2_witness :
    (always429 (getReq "https://p1")).status = 429 ∧
    device_messages_page c0 always429 1 "https://p1" =
      .error (.rateLimitExceeded "Exceeded Sigfox API rate limit" 5) :=
  ⟨rfl, C2_amended_rate_limit_retry.1 c0 always429 0 "https://p1" rfl⟩

/-! ## Claim C3 -/

/-- A timed mocked backend answering every request with a good empty
single page. -/
def goodB : Nat → Req → Response := fun _ _ => pageResponse [] none

/-- Helper for C3: an invocation of the decorated `device_messages_page`
landing inside the current 5-second window of its own limiter (one call
already consumed, clock `t` with `lr ≤ t < lr + 5`) raises inside
`limits`, and `sleep_and_retry` sleeps the remaining window, re-entering
the method at clock `lr + 5` with the limiter already charged. -/
theorem timed_dmp_limited_step (c : Sigfox) (B : Nat → Req → Response)
    (f : Nat) (t lr : Int) (rc : Nat) (lg : List Int) (dml : LimState)
    (url : String) (h1 : lr ≤ t) (h2 : t < lr + 5) :
    timed_device_messages_page c B (f + 1) ⟨t, rc, lg, dml, ⟨lr, 1⟩⟩ url =
      timed_device_messages_page c B f ⟨lr + 5, rc, lg, dml, ⟨lr, 2⟩⟩ url := by
  have hpr : ¬ ((5 : Int) - (t - lr) ≤ 0) := by omega
  have heq : t + (5 - (t - lr)) = lr + 5 := by omega
  simp only [timed_device_messages_page, limitsCheck]
  rw [if_neg hpr]
  simp [heq]

/-- Helper for C3: at clock `lr + 5` the window that started at `lr` has
elapsed, so the limiter resets and the request is issued immediately. -/
theorem timed_dmp_window_reset (c : Sigfox) (B : Nat → Req → Response)
    (f : Nat) (lr : Int) (rc : Nat) (lg : List Int) (dml : LimState)
    (n : Nat) (p : List Json) (url : String)
    (hB : ∀ k rq, B k rq = pageResponse p none) :
    timed_device_messages_page c B (f + 1) ⟨lr + 5, rc, lg, dml, ⟨lr, n⟩⟩ url =
      (.ok (.arr p), ⟨lr + 5, rc + 1, lg ++ [lr + 5], dml, ⟨lr + 5, 1⟩⟩) := by
  have hpr : (5 : Int) - (lr + 5 - lr) ≤ 0 := by omega
  simp only [timed_device_messages_page, limitsCheck]
  rw [if_pos hpr]
  simp [hB, pageResponse, pageJson_pyGet_data, pageJson_paging_none]

/-- Helper for C3: an invocation of the decorated `device_messages`
landing inside the current 5-second window of its own `dmLim` limiter
(one call already consumed, clock `t` with `lr ≤ t < lr + 5`) raises
inside `limits`, and `sleep_and_retry` sleeps the remaining window,
re-entering the method at clock `lr + 5` with the limiter already
charged. -/
theorem timed_dm_limited_step (c : Sigfox) (B : Nat → Req → Response)
    (f : Nat) (t lr : Int) (rc : Nat) (lg : List Int) (dmpl : LimState)
    (device_id : String) (params : Option (List (String × Json)))
    (h1 : lr ≤ t) (h2 : t < lr + 5) :
    timed_device_messages c B (f + 1) ⟨t, rc, lg, ⟨lr, 1⟩, dmpl⟩ device_id params =
      timed_device_messages c B f ⟨lr + 5, rc, lg, ⟨lr, 2⟩, dmpl⟩ device_id params := by
  have hpr : ¬ ((5 : Int) - (t - lr) ≤ 0) := by omega
  have heq : t + (5 - (t - lr)) = lr + 5 := by omega
  simp only [timed_device_messages, limitsCheck]
  rw [if_neg hpr]
  simp [heq]

/-- Helper for C3: at clock `lr + 5` the window of `device_messages`'s
own limiter that started at `lr` has elapsed, so the limiter resets and
the first-page request is issued immediately. -/
theorem timed_dm_window_reset (c : Sigfox) (B : Nat → Req → Response)
    (f : Nat) (lr : Int) (rc : Nat) (lg : List Int) (dmpl : LimState)
    (n : Nat) (p : List Json) (device_id : String)
    (params : Option (List (String × Json)))
    (hB : ∀ k rq, B k rq = pageResponse p none) :
    timed_device_messages c B (f + 1) ⟨lr + 5, rc, lg, ⟨lr, n⟩, dmpl⟩
        device_id params =
      (.ok (.arr p), ⟨lr + 5, rc + 1, lg ++ [lr + 5], ⟨lr + 5, 1⟩, dmpl⟩) := by
  have hpr : (5 : Int) - (lr + 5 - lr) ≤ 0 := by omega
  simp only [timed_device_messages, limitsCheck]
  rw [if_pos hpr]
  simp [hB, pageResponse, pageJson_pyGet_data, pageJson_paging_none]

/-- Counterexample to C3 as stated: calling `device_messages` and then
`device_messages_page` back-to-back at clock 0 issues two HTTP requests
at the same instant — the two entry points do not share limiter state
(`@limits` was applied to each method separately, creating two
independent `RateLimitDecorator` instances), so more than one request is
issued in a single 5-second window. -/
theorem C3_counterexample :
    ((timed_device_messages_page c0 goodB 2
        (timed_device_messages c0 goodB 2 initTState "dev1" none).2
        "https://p2").2.log = [0, 0]) ∧
    ¬ List.Pairwise (fun a b => a + 5 ≤ b)
        ((timed_device_messages_page c0 goodB 2
          (timed_device_messages c0 goodB 2 initTState "dev1" none).2
          "https://p2").2.log) := by
  have h : ((timed_device_messages_page c0 goodB 2
      (timed_device_messages c0 goodB 2 initTState "dev1" none).2
      "https://p2").2.log = [0, 0]) := rfl
  refine ⟨h, ?_⟩
  rw [h]
  intro hp
  have := (List.pairwise_cons.mp hp).1 0 (by simp)
  omega

/-- Claim C3 (amended): each of the two message-retrieval entry points is
restricted to at most one invocation per 5-second window by its own
limiter (decorator state per method, shared process-wide, not shared
between the two methods); when a method's own limit would be exceeded,
the call is delayed by sleeping until the window elapses — at which point
the request is issued — rather than rejected.  Conjunct 1 proves the
own-window delay for `device_messages_page` (its `dmpLim` limiter),
conjunct 2 proves it for `device_messages` (its `dmLim` limiter); the
last two conjuncts show the independence concretely: each entry point
issues its request immediately at clock 0 even though the other method's
limiter has just consumed its own window. -/
theorem C3_amended_per_method_limiter (c : Sigfox) (B : Nat → Req → Response)
    (p : List Json) (f : Nat) (t lr : Int) (rc : Nat) (lg : List Int)
    (dml dmpl : LimState) (url device_id : String)
    (params : Option (List (String × Json)))
    (hB : ∀ k rq, B k rq = pageResponse p none)
    (h1 : lr ≤ t) (h2 : t < lr + 5) :
    (timed_device_messages_page c B (f + 2) ⟨t, rc, lg, dml, ⟨lr, 1⟩⟩ url =
      (.ok (.arr p), ⟨lr + 5, rc + 1, lg ++ [lr + 5], dml, ⟨lr + 5, 1⟩⟩)) ∧
    (timed_device_messages c B (f + 2) ⟨t, rc, lg, ⟨lr, 1⟩, dmpl⟩
        device_id params =
      (.ok (.arr p), ⟨lr + 5, rc + 1, lg ++ [lr + 5], ⟨lr + 5, 1⟩, dmpl⟩)) ∧
    (timed_device_messages_page c0 goodB 2 ⟨0, 1, [0], ⟨0, 1⟩, ⟨0, 0⟩⟩
        "https://p2").2.log = [0, 0] ∧
    (timed_device_messages c0 goodB 2 ⟨0, 1, [0], ⟨0, 0⟩, ⟨0, 1⟩⟩
        "dev1" none).2.log = [0, 0] := by
  refine ⟨?_, ?_, rfl, rfl⟩
  · rw [timed_dmp_limited_step c B (f + 1) t lr rc lg dml url h1 h2]
    exact timed_dmp_window_reset c B f lr rc lg dml 2 p url hB
  · rw [timed_dm_limited_step c B (f + 1) t lr rc lg dmpl device_id params h1 h2]
    exact timed_dm_window_reset c B f lr rc lg dmpl 2 p device_id params hB

/-- Witness for C3 (amended): a second `device_messages_page` call and a
second `device_messages` call, each made at clock 3 inside the window its
own limiter consumed at clock 0, are both delayed to clock 5 and then
issue their request. -/
theorem C3_witness :
    (∀ (k : Nat) (rq : Req), goodB k rq = pageResponse [] none) ∧
    ((0 : Int) ≤ 3 ∧ (3 : Int) < 0 + 5) ∧
    timed_device_messages_page c0 goodB 2 ⟨3, 1, [0], ⟨0, 0⟩, ⟨0, 1⟩⟩ "https://p2" =
      (.ok (.arr []), ⟨0 + 5, 1 + 1, [0] ++ [0 + 5], ⟨0, 0⟩, ⟨0 + 5, 1⟩⟩) ∧
    timed_device_messages c0 goodB 2 ⟨3, 1, [0], ⟨0, 1⟩, ⟨0, 0⟩⟩ "dev1" none =
      (.ok (.arr []), ⟨0 + 5, 1 + 1, [0] ++ [0 + 5], ⟨0 + 5, 1⟩, ⟨0, 0⟩⟩) :=
  ⟨fun _ _ => rfl, ⟨by omega, by omega⟩,
    (C3_amended_per_method_limiter c0 goodB [] 0 3 0 1 [0] ⟨0, 0⟩ ⟨0, 0⟩
      "https://p2" "dev1" none (fun _ _ => rfl) (by omega) (by omega)).1,
    (C3_amended_per_method_limiter c0 goodB [] 0 3 0 1 [0] ⟨0, 0⟩ ⟨0, 0⟩
      "https://p2" "dev1" none (fun _ _ => rfl) (by omega) (by omega)).2.1⟩

/-! ## Claim C4 -/

/-- A pure mocked backend answering HTTP 429 with a body that is not
valid JSON. -/
def garbage429B : Req → Response := fun _ =>
  { status := 429, text := "garbage", json := none }

/-- Counterexample to C4 as stated: on the message endpoints the 429
check precedes JSON parsing, so a 429 response whose body is not valid
JSON makes the method body raise the rate-limit error, not the
JSON-decode (`ProtocolError`) one. -/
theorem C4_counterexample :
    device_messages_page c0 garbage429B 1 "https://p1" =
      .error (.rateLimitExceeded "Exceeded Sigfox API rate limit" 5) ∧
    ¬ (device_messages_page c0 garbage429B 1 "https://p1" =
        .error (.jsonDecodeError "garbage")) := by
  have h : device_messages_page c0 garbage429B 1 "https://p1" =
      .error (.rateLimitExceeded "Exceeded Sigfox API rate limit" 5) := rfl
  refine ⟨h, ?_⟩
  rw [h]
  intro hc
  simp at hc

/-- Claim C4 (amended): for every read endpoint call (`device_info`,
`groups_list`, `device_list`, `device_messages`, `device_messages_page`)
whose response body is not valid JSON — and, for the two message
endpoints, whose status is not 429, since the 429 branch takes
precedence there — the call fails with the JSON-decode error kind (the
spec's `ProtocolError`), and the raw response body text is carried by
(hence retrievable from) the raised error. -/
theorem C4_amended_protocol_error :
    (∀ (c : Sigfox) (B : Req → Response) (device_id : String),
        (B (infoReq c device_id)).json = none →
        device_info c B device_id =
          .error (.jsonDecodeError (B (infoReq c device_id)).text)) ∧
    (∀ (c : Sigfox) (B : Req → Response),
        (B (groupsReq c)).json = none →
        groups_list c B = .error (.jsonDecodeError (B (groupsReq c)).text)) ∧
    (∀ (c : Sigfox) (B : Req → Response) (dt : DeviceType),
        (B (deviceListReq c dt)).json = none →
        device_list c B dt =
          .error (.jsonDecodeError (B (deviceListReq c dt)).text)) ∧
    (∀ (c : Sigfox) (B : Req → Response) (fuel : Nat) (url : String),
        (B (getReq url)).status ≠ 429 → (B (getReq url)).json = none →
        device_messages_page c B (fuel + 1) url =
          .error (.jsonDecodeError (B (getReq url)).text)) ∧
    (∀ (c : Sigfox) (B : Req → Response) (fuel : Nat) (device_id : String)
        (params : Option (List (String × Json))),
        (B (msgReq c device_id params)).status ≠ 429 →
        (B (msgReq c device_id params)).json = none →
        device_messages c B fuel device_id params =
          .error (.jsonDecodeError (B (msgReq c device_id params)).text)) := by
  refine ⟨?_, ?_, ?_, ?_, ?_⟩
  · intro c B device_id h
    simp [device_info, h]
  · intro c B h
    simp [groups_list, h]
  · intro c B dt h
    simp [device_list, h]
  · intro c B fuel url hs h
    simp [device_messages_page, hs, h]
  · intro c B fuel device_id params hs h
    simp [device_messages, hs, h]

/-- A pure mocked backend answering status 200 with a body that is not
valid JSON. -/
def nonJsonB : Req → Response := fun _ =>
  { status := 200, text := "<html>Bad Gateway</html>", json := none }

/-- Witness for C4 (amended): a non-JSON body on `device_info` yields the
JSON-decode error carrying the raw body text. -/
theorem C4_witness :
    (nonJsonB (infoReq c0 "d1")).json = none ∧
    device_info c0 nonJsonB "d1" =
      .error (.jsonDecodeError "<html>Bad Gateway</html>") :=
  ⟨rfl, C4_amended_protocol_error.1 c0 nonJsonB "d1" rfl⟩

/-! ## Claim C5 -/

/-- Claim C5: constructing the client with an empty login or an empty
password raises the configuration error (a generic `Exception` in the
code, the spec's `ConfigurationError`) immediately; no network call can
be attempted because the constructor takes no backend at all. -/
theorem C5_configuration_error (login password : String) (debug : Bool)
    (h : login = "" ∨ password = "") :
    sigfox_init login password debug =
      .error (.configurationError
        "Please define login and password when initiating pySigfox class!") := by
  simp [sigfox_init, h]

/-- Witness for C5: empty login, non-empty password. -/
theorem C5_witness :
    ("" = "" ∨ "hunter2" = "") ∧
    sigfox_init "" "hunter2" false =
      .error (.configurationError
        "Please define login and password when initiating pySigfox class!") :=
  ⟨Or.inl rfl, C5_configuration_error "" "hunter2" false (Or.inl rfl)⟩

/-! ## Claim C6 -/

/-- Claim C6: for every device descriptor, certificate and device-type,
the body composed by `device_create` has `prefix` exactly `"api_added-"`,
`ids` exactly the one supplied id/pac pair, and `productCertificate` the
supplied certificate; and the body is independent of the device-type
passed (it only enters the URL). -/
theorem C6_device_create_body (c : Sigfox) (device : Device) (cert : String)
    (dt dt' : DeviceType) :
    (device_create_toPost device cert).pyGet "prefix" = .ok (.str "api_added-") ∧
    (device_create_toPost device cert).pyGet "ids" =
      .ok (.arr [.obj [("id", .str device.id), ("pac", .str device.pac)]]) ∧
    (device_create_toPost device cert).pyGet "productCertificate" =
      .ok (.str cert) ∧
    (device_create_req c device cert dt).body =
      (device_create_req c device cert dt').body :=
  ⟨rfl, rfl, rfl, rfl⟩

/-! ## Claim C7 -/

/-- A mocked backend returning, for device `d1`, an enveloped body
`{"data": {"id": "d1"}}`. -/
def envB : Req → Response := fun rq =>
  if rq.url = "https://api.sigfox.com/v2/devices/d1" then
    { status := 200, text := "",
      json := some (.obj [("data", .obj [("id", .str "d1")])]) }
  else { status := 404, text := "", json := none }

/-- Counterexample to C7 as stated: `device_info` returns `r.json()`, the
full parsed body — not its `data` field.  On an enveloped body the result
is the envelope (whose own `id` lookup fails), not the inner record. -/
theorem C7_counterexample :
    device_info c0 envB "d1" = .ok (.obj [("data", .obj [("id", .str "d1")])]) ∧
    (Json.obj [("data", .obj [("id", .str "d1")])]).pyGet "data" =
      .ok (.obj [("id", .str "d1")]) ∧
    ¬ (device_info c0 envB "d1" = .ok (.obj [("id", .str "d1")])) ∧
    (Json.obj [("data", .obj [("id", .str "d1")])]).pyGet "id" =
      .error .keyError := by
  have h : device_info c0 envB "d1" =
      .ok (.obj [("data", .obj [("id", .str "d1")])]) := rfl
  refine ⟨h, rfl, ?_, rfl⟩
  rw [h]
  intro hc
  simp at hc

/-- Claim C7 (amended): for every device id, `device_info` returns the
full parsed JSON response body (no `data` field is extracted); in
particular, when the backend answers with the device record itself at
top level, the returned record's `id` field matches the requested id. -/
theorem C7_amended_full_body (c : Sigfox) (B : Req → Response)
    (device_id : String) (j : Json)
    (h : (B (infoReq c device_id)).json = some j) :
    device_info c B device_id = .ok j ∧
    (j.pyGet "id" = .ok (.str device_id) →
      ∃ jj, device_info c B device_id = .ok jj ∧
        jj.pyGet "id" = .ok (.str device_id)) := by
  have hfull : device_info c B device_id = .ok j := by simp [device_info, h]
  exact ⟨hfull, fun hid => ⟨j, hfull, hid⟩⟩

/-- A mocked backend returning the device record at top level for `d2`. -/
def recB : Req → Response := fun rq =>
  if rq.url = "https://api.sigfox.com/v2/devices/d2" then
    { status := 200, text := "",
      json := some (.obj [("id", .str "d2"), ("name", .str "sensor")]) }
  else { status := 404, text := "", json := none }

/-- Witness for C7 (amended): a top-level device record is returned in
full and its id matches. -/
theorem C7_witness :
    (recB (infoReq c0 "d2")).json =
      some (.obj [("id", .str "d2"), ("name", .str "sensor")]) ∧
    device_info c0 recB "d2" =
      .ok (.obj [("id", .str "d2"), ("name", .str "sensor")]) :=
  ⟨rfl, (C7_amended_full_body c0 recB "d2"
    (.obj [("id", .str "d2"), ("name", .str "sensor")]) rfl).1⟩

/-! ## Claim C8 -/

/-- A pure mocked backend for the device-type-create endpoint. -/
def rawB : Req → Response := fun _ =>
  { status := 400, text := "ack", json := some (.obj [("ok", .bool false)]) }

/-- Claim C8 is a code bug, evaluated here: `device_types_create`
ignores its `new` argument — the posted body carries the hardcoded
values `'test1'` and `'moire_la_30f0_30f1'`, not the supplied
name/contractId — and the method returns the raw response object `r`,
not a parsed JSON body. -/
theorem C8_device_types_create_ignores_input :
    (device_types_create_req c0 ⟨"foo", "bar"⟩).body =
      some (.obj [("name", .str "test1"),
                  ("contractId", .str "moire_la_30f0_30f1")]) ∧
    ¬ ((Json.str "test1") = .str "foo") ∧
    ¬ ((Json.str "moire_la_30f0_30f1") = .str "bar") ∧
    device_types_create c0 rawB ⟨"foo", "bar"⟩ =
      rawB (device_types_create_req c0 ⟨"foo", "bar"⟩) := by
  refine ⟨rfl, fun h => ?_, fun h => ?_, rfl⟩ <;> simp at h

/-! ## Claim C10 -/

/-- Claim C10: for every device id, new name, and backend (hence any
response status and body), `device_rename` returns `None` and raises
nothing after the HTTP exchange: it never inspects the response, so a
backend failure is indistinguishable from success at this interface —
the result is the same for any two backends. -/
theorem C10_device_rename_ignores_response :
    ∀ (c : Sigfox) (B B' : Req → Response) (device_id new_name : String),
      device_rename c B device_id new_name = .ok () ∧
      device_rename c B device_id new_name = device_rename c B' device_id new_name :=
  fun _ _ _ _ _ => ⟨rfl, rfl⟩

end PySigfox
